import Mathlib

/-!
Verification development for the rspawn self-update/relaunch library
(`src/lib.rs`).  The effectful Rust code is shallowly embedded as pure
Lean functions: the ambient world (filesystem, registry fetch result,
subprocess spawn outcomes) is passed in explicitly as an `Env`, and every
observable side effect performed by a run is recorded in an event trace.
-/

namespace Rspawn

/-- Error kinds, one per distinct error-return site of `relaunch_program`
in `src/lib.rs` (the Rust code surfaces each as an `anyhow` error with a
distinct message/context). -/
inductive RErr where
  | lockConflict
  | lockCreateFailure
  | originCheckFailure
  | registryFetchFailure
  | installSpawnFailure
  | installWaitFailure
  | relaunchSpawnFailure
deriving DecidableEq

/-- Observable side effects of a run of `relaunch_program`, in the order
they happen in `src/lib.rs`. -/
inductive Event where
  | lockCreated
  | originCheckRun
  | registryFetch
  | confirmCall (version : String)
  | installSpawn
  | installWait
  | relaunchSpawnAttempt
  | processExit (code : Nat)
deriving DecidableEq

instance {ε α : Type} [DecidableEq ε] [DecidableEq α] :
    DecidableEq (Except ε α) := fun a b =>
  match a, b with
  | .ok x, .ok y =>
      if h : x = y then isTrue (by rw [h])
      else isFalse (by intro hc; cases hc; exact h rfl)
  | .error e, .error f =>
      if h : e = f then isTrue (by rw [h])
      else isFalse (by intro hc; cases hc; exact h rfl)
  | .ok _, .error _ => isFalse (by intro hc; cases hc)
  | .error _, .ok _ => isFalse (by intro hc; cases hc)

/-- How a run of `relaunch_program` ends: either control returns to the
caller with a `Result` (`ret`), or the process terminates via `exit`
(`exited`) and the caller never regains control. -/
inductive Outcome where
  | ret (r : Except RErr Unit)
  | exited (code : Nat)
deriving DecidableEq

/-- The ambient world of one call to `relaunch_program`: the generated
lock-file path (the UUID generation is nondeterministic, so the path is a
parameter), the initial filesystem (existence predicate on paths), and
the results of the fallible external calls the code makes, in program
order.  `installExitCode` is the exit status of the `cargo install`
child; `src/lib.rs` line 348 discards it (`let _ = child.wait()...`). -/
structure Env where
  lockPath : String
  fs0 : String → Bool
  createLockOk : Bool
  originFromPath : Bool
  fetchResult : Except Unit String
  currentVersion : String
  installSpawnOk : Bool
  installWaitOk : Bool
  installExitCode : Nat
  relaunchSpawnOk : Bool

/-- Result of a run: the outcome, the final filesystem (after the
`LockFileGuard` destructor has or has not run), and the trace of
observable side effects. -/
structure RunResult where
  outcome : Outcome
  fs : String → Bool
  events : List Event

/-- Shallow embedding of `relaunch_program` (`src/lib.rs` lines 284-372),
with the `LockFileGuard` drop semantics (lines 39-48) made explicit: on
every path that returns control to the caller after the guard was
created, the lock file is removed from the filesystem; on the `exit(0)`
path the destructor does not run and the lock file stays.

Line-by-line correspondence:
- lines 294-299: generated path pre-exists on disk → error (lock
  conflict), nothing else happens;
- line 302: `create_lock_file` may fail → error before the guard exists;
- lines 305-307: guard created, lock file now on disk;
- lines 310-312: if the origin-check flag is set, `is_executed_from_path`
  runs (the `&&` short-circuits when the flag is false); a `false` result
  returns an error, guard drops;
- line 316: registry fetch; an error propagates, guard drops;
- line 321: exact string inequality `latest != current`;
- line 331: the confirmation closure is invoked once with `latest`;
- lines 344-348: `cargo install` spawn then wait; either failing to start
  or failing to wait is an error; the exit status itself is discarded;
- lines 352-363: relaunch spawn; success runs `exit(0)` (guard skipped),
  failure returns an error (guard drops). -/
def relaunch_program (check_if_executed_from_PATH : Bool)
    (confirm : String → Bool) (env : Env) : RunResult :=
  let p := env.lockPath
  if env.fs0 p then
    { outcome := .ret (.error .lockConflict), fs := env.fs0, events := [] }
  else if env.createLockOk = false then
    { outcome := .ret (.error .lockCreateFailure), fs := env.fs0, events := [] }
  else
    let fsLocked : String → Bool := fun q => if q = p then true else env.fs0 q
    let fsReleased : String → Bool := fun q => if q = p then false else fsLocked q
    let ev0 : List Event := [.lockCreated]
    if check_if_executed_from_PATH && !env.originFromPath then
      { outcome := .ret (.error .originCheckFailure), fs := fsReleased,
        events := ev0 ++ [.originCheckRun] }
    else
      let ev1 := ev0 ++ (if check_if_executed_from_PATH then [Event.originCheckRun] else [])
      match env.fetchResult with
      | .error _ =>
          { outcome := .ret (.error .registryFetchFailure), fs := fsReleased,
            events := ev1 ++ [.registryFetch] }
      | .ok latestVersion =>
          let ev2 := ev1 ++ [.registryFetch]
          if latestVersion ≠ env.currentVersion then
            let ev3 := ev2 ++ [.confirmCall latestVersion]
            if confirm latestVersion then
              if env.installSpawnOk = false then
                { outcome := .ret (.error .installSpawnFailure), fs := fsReleased,
                  events := ev3 }
              else if env.installWaitOk = false then
                { outcome := .ret (.error .installWaitFailure), fs := fsReleased,
                  events := ev3 ++ [.installSpawn] }
              else
                let ev4 := ev3 ++ [.installSpawn, .installWait, .relaunchSpawnAttempt]
                if env.relaunchSpawnOk then
                  { outcome := .exited 0, fs := fsLocked,
                    events := ev4 ++ [.processExit 0] }
                else
                  { outcome := .ret (.error .relaunchSpawnFailure), fs := fsReleased,
                    events := ev4 }
            else
              { outcome := .ret (.ok ()), fs := fsReleased, events := ev3 }
          else
            { outcome := .ret (.ok ()), fs := fsReleased, events := ev2 }

/-- True when the trace contains no invocation of the confirmation
policy. -/
def noConfirm (evs : List Event) : Bool :=
  evs.all fun e => match e with
    | .confirmCall _ => false
    | _ => true

/-- True when the trace contains no subprocess spawn (neither the
installer nor the relaunch). -/
def noSubprocess (evs : List Event) : Bool :=
  evs.all fun e => match e with
    | .installSpawn => false
    | .relaunchSpawnAttempt => false
    | _ => true

/-- The arguments of the confirmation-policy invocations in a trace, in
order. -/
def confirmCalls (evs : List Event) : List String :=
  evs.filterMap fun e => match e with
    | .confirmCall v => some v
    | _ => none

/-- Model of a resolved executable path (`std::path::PathBuf` as used by
`is_executed_from_path`): whether the path is absolute, and its list of
normal components.  `parent().is_none()` holds exactly for the empty
component list (root `/` or the empty path), and `file_name()` is the
last component. -/
structure RPath where
  absolute : Bool
  parts : List String
deriving DecidableEq

/-- Mirrors `Path::is_relative`. -/
def RPath.is_relative (p : RPath) : Bool := !p.absolute

/-- Whether `Path::parent` returns `None`. -/
def RPath.parent_isNone (p : RPath) : Bool := p.parts.isEmpty

/-- Mirrors `Path::file_name`: the last component, if any. -/
def RPath.file_name (p : RPath) : Option String := p.parts.getLast?

/-- Splitting a character list at every occurrence of `sep`; the
semantics of the Rust `str::split` method with a single-character pattern (the
empty input yields one empty piece, a trailing separator yields a
trailing empty piece). -/
def splitCharList (sep : Char) : List Char → List (List Char)
  | [] => [[]]
  | c :: cs =>
      let rest := splitCharList sep cs
      if c = sep then [] :: rest
      else
        match rest with
        | [] => [c] :: []
        | r :: rs => (c :: r) :: rs

/-- The Rust `str::split(sep)` call on a string, as a list of pieces. -/
def splitChar (sep : Char) (s : String) : List String :=
  (splitCharList sep s.data).map String.mk

/-- Whether a string ends with the path separator `/`. -/
def endsWithSlash (s : String) : Bool :=
  match s.data.getLast? with
  | some c => c = '/'
  | none => false

/-- Mirrors `Path::new(dir).join(name)` for a relative `name`: the empty
directory yields the bare name; otherwise the two are joined with a `/`
separator unless `dir` already ends in one. -/
def joinDir (dir name : String) : String :=
  if dir = "" then name
  else if endsWithSlash dir then dir ++ name
  else dir ++ "/" ++ name

/-- Shallow embedding of `is_executed_from_path` (`src/lib.rs` lines
97-120).  `exe` is the result of `env::current_exe()` (on error the code
substitutes the empty path, which is relative), `pathVar` is the value of
the `PATH` environment variable (`none` when unset), and `fsExists` is
the filesystem existence predicate.  `env::var("PATH")` errors are
replaced by the empty string (line 111), which `split(':')` turns into
the single candidate `""`; the loop returns `true` at the first candidate
directory whose join with the executable name exists. -/
def is_executed_from_path (exe : RPath) (pathVar : Option String)
    (fsExists : String → Bool) : Bool :=
  if exe.is_relative || exe.parent_isNone then false
  else
    match exe.file_name with
    | none => false
    | some exeName =>
        (splitChar ':' (pathVar.getD "")).any fun dir => fsExists (joinDir dir exeName)

/-- The `RSpawn` builder (`src/lib.rs` lines 145-152): the confirmation
closure is modelled as a pure `String → Bool`. -/
structure RSpawn where
  active_features : Option (List String)
  user_confirm : Option (String → Bool)
  check_if_executed_from_PATH : Option Bool

/-- Mirrors `RSpawn::new` (`src/lib.rs` lines 159-166): all fields default to
`None` except the origin-check flag, which defaults to `Some(true)`. -/
def RSpawn.new : RSpawn :=
  { active_features := none
    user_confirm := none
    check_if_executed_from_PATH := some true }

/-- The builder method `RSpawn::active_features` (`src/lib.rs` lines
184-187). -/
def RSpawn.set_active_features (b : RSpawn) (features : List String) : RSpawn :=
  { b with active_features := some features }

/-- The builder method `RSpawn::user_confirm` (`src/lib.rs` lines
210-213). -/
def RSpawn.set_user_confirm (b : RSpawn) (f : String → Bool) : RSpawn :=
  { b with user_confirm := some f }

/-- The builder method `RSpawn::check_if_executed_from_PATH`
(`src/lib.rs` lines 216-219). -/
def RSpawn.set_check_if_executed_from_PATH (b : RSpawn) (check : Bool) : RSpawn :=
  { b with check_if_executed_from_PATH := some check }

/-- The builder method `RSpawn::relaunch_program` (`src/lib.rs` lines
245-258): the origin-check flag falls back to `true` when absent
(`unwrap_or(true)`, line 249), the confirmation closure falls back to
`default_user_confirm` (modelled by the `default_confirm` parameter,
since the real default reads stdin), and the free `relaunch_program` is
invoked. -/
def RSpawn.relaunch_program_b (b : RSpawn) (default_confirm : String → Bool)
    (env : Env) : RunResult :=
  relaunch_program (b.check_if_executed_from_PATH.getD true)
    (b.user_confirm.getD default_confirm) env

/-- Builders reachable from `RSpawn::new` without ever calling the
`check_if_executed_from_PATH` setter. -/
inductive BuiltWithoutCheckSet : RSpawn → Prop where
  | new : BuiltWithoutCheckSet RSpawn.new
  | features {b : RSpawn} (fs : List String) :
      BuiltWithoutCheckSet b → BuiltWithoutCheckSet (b.set_active_features fs)
  | confirm {b : RSpawn} (f : String → Bool) :
      BuiltWithoutCheckSet b → BuiltWithoutCheckSet (b.set_user_confirm f)

/-- A filesystem with no files. -/
def fsEmpty : String → Bool := fun _ => false

/-- A filesystem holding exactly the path the lock generator would
produce. -/
def fsLockTaken : String → Bool := fun s => s == "/tmp/aaaa.lock"

/-- A concrete environment for evaluating runs: empty filesystem,
everything succeeds, registry reports a newer version. -/
def envBase : Env :=
  { lockPath := "/tmp/aaaa.lock"
    fs0 := fsEmpty
    createLockOk := true
    originFromPath := true
    fetchResult := .ok "0.2.0"
    currentVersion := "0.1.0"
    installSpawnOk := true
    installWaitOk := true
    installExitCode := 0
    relaunchSpawnOk := true }

end Rspawn

namespace Rspawn

/-- C1: when the generated lock-file path already exists on disk,
`relaunch_program` returns the lock-conflict error immediately and
performs no side effects: the filesystem is unchanged (no lock file
created) and the event trace is empty, so no origin check runs, no
registry call is made, the confirmation policy is never invoked, and no
subprocess is spawned. -/
theorem lock_conflict_no_side_effects (flag : Bool) (confirm : String → Bool)
    (env : Env) (h : env.fs0 env.lockPath = true) :
    relaunch_program flag confirm env =
      { outcome := .ret (.error .lockConflict), fs := env.fs0, events := [] } := by
  unfold relaunch_program
  simp [h]

/-- Witness for C1 at a concrete environment whose filesystem already
holds the generated lock path. -/
theorem lock_conflict_no_side_effects_witness :
    relaunch_program true (fun _ => true) { envBase with fs0 := fsLockTaken } =
      { outcome := .ret (.error .lockConflict), fs := fsLockTaken, events := [] } :=
  lock_conflict_no_side_effects true (fun _ => true)
    { envBase with fs0 := fsLockTaken } (by decide)

/-- C2: when the versions differ, the confirmation policy returns `true`,
the installer subprocess runs, and the relaunch spawn succeeds, the call
never returns to its caller: the outcome is immediate process
termination with exit code 0, and the lock file is still present in the
final filesystem (the scoped `LockFileGuard` release is bypassed by
`exit(0)`). -/
theorem relaunch_success_exits_without_releasing_lock
    (flag : Bool) (confirm : String → Bool) (env : Env) (v : String)
    (hfs : env.fs0 env.lockPath = false)
    (hcreate : env.createLockOk = true)
    (horigin : flag = false ∨ env.originFromPath = true)
    (hfetch : env.fetchResult = .ok v)
    (hne : v ≠ env.currentVersion)
    (hconfirm : confirm v = true)
    (hinstall : env.installSpawnOk = true)
    (hwait : env.installWaitOk = true)
    (hrelaunch : env.relaunchSpawnOk = true) :
    (relaunch_program flag confirm env).outcome = .exited 0 ∧
    (relaunch_program flag confirm env).fs env.lockPath = true := by
  unfold relaunch_program
  rcases horigin with h | h <;>
    simp [hfs, hcreate, h, hfetch, hne, hconfirm, hinstall, hwait, hrelaunch]

/-- Witness for C2 at the concrete all-succeeding environment. -/
theorem relaunch_success_exits_without_releasing_lock_witness :
    (relaunch_program true (fun _ => true) envBase).outcome = .exited 0 ∧
    (relaunch_program true (fun _ => true) envBase).fs envBase.lockPath = true :=
  relaunch_success_exits_without_releasing_lock true (fun _ => true) envBase
    "0.2.0" (by decide) (by decide) (Or.inr (by decide)) (by decide)
    (by decide) (by decide) (by decide) (by decide) (by decide)

/-- C3: when the fetched latest version equals the build-time current
version, the run returns `Ok` (the no-update-needed outcome), the
confirmation policy is never invoked, no subprocess is spawned, and the
lock file the run created is gone from the final filesystem. -/
theorem no_update_needed
    (flag : Bool) (confirm : String → Bool) (env : Env) (v : String)
    (hfs : env.fs0 env.lockPath = false)
    (hcreate : env.createLockOk = true)
    (horigin : flag = false ∨ env.originFromPath = true)
    (hfetch : env.fetchResult = .ok v)
    (heq : env.currentVersion = v) :
    (relaunch_program flag confirm env).outcome = .ret (.ok ()) ∧
    noConfirm (relaunch_program flag confirm env).events = true ∧
    noSubprocess (relaunch_program flag confirm env).events = true ∧
    (relaunch_program flag confirm env).fs env.lockPath = false := by
  unfold relaunch_program
  rcases horigin with h | h
  · subst h
    simp [hfs, hcreate, hfetch, heq, noConfirm, noSubprocess]
  · cases flag <;> simp [hfs, hcreate, h, hfetch, heq, noConfirm, noSubprocess]

/-- Witness for C3 at a concrete environment where the registry returns
the current version. -/
theorem no_update_needed_witness :
    (relaunch_program true (fun _ => true)
        { envBase with fetchResult := .ok "0.1.0" }).outcome = .ret (.ok ()) ∧
    noConfirm (relaunch_program true (fun _ => true)
        { envBase with fetchResult := .ok "0.1.0" }).events = true ∧
    noSubprocess (relaunch_program true (fun _ => true)
        { envBase with fetchResult := .ok "0.1.0" }).events = true ∧
    (relaunch_program true (fun _ => true)
        { envBase with fetchResult := .ok "0.1.0" }).fs
        ({ envBase with fetchResult := .ok "0.1.0" } : Env).lockPath = false :=
  no_update_needed true (fun _ => true) { envBase with fetchResult := .ok "0.1.0" }
    "0.1.0" (by decide) (by decide) (Or.inr (by decide)) (by decide) (by decide)

/-- C4: when the versions differ and the confirmation policy returns
`false`, no subprocess is spawned, the run returns `Ok` (the
user-declined outcome), the lock marker is gone from the final
filesystem, and the confirmation policy was invoked exactly once, with
the fetched latest version as its argument. -/
theorem user_declined
    (flag : Bool) (confirm : String → Bool) (env : Env) (v : String)
    (hfs : env.fs0 env.lockPath = false)
    (hcreate : env.createLockOk = true)
    (horigin : flag = false ∨ env.originFromPath = true)
    (hfetch : env.fetchResult = .ok v)
    (hne : v ≠ env.currentVersion)
    (hconfirm : confirm v = false) :
    (relaunch_program flag confirm env).outcome = .ret (.ok ()) ∧
    noSubprocess (relaunch_program flag confirm env).events = true ∧
    confirmCalls (relaunch_program flag confirm env).events = [v] ∧
    (relaunch_program flag confirm env).fs env.lockPath = false := by
  unfold relaunch_program
  rcases horigin with h | h
  · subst h
    simp [hfs, hcreate, hfetch, hne, hconfirm, noSubprocess, confirmCalls]
  · cases flag <;>
      simp [hfs, hcreate, h, hfetch, hne, hconfirm, noSubprocess, confirmCalls]

/-- Witness for C4 at a concrete environment with an always-declining
confirmation policy. -/
theorem user_declined_witness :
    (relaunch_program true (fun _ => false) envBase).outcome = .ret (.ok ()) ∧
    noSubprocess (relaunch_program true (fun _ => false) envBase).events = true ∧
    confirmCalls (relaunch_program true (fun _ => false) envBase).events = ["0.2.0"] ∧
    (relaunch_program true (fun _ => false) envBase).fs envBase.lockPath = false :=
  user_declined true (fun _ => false) envBase "0.2.0" (by decide) (by decide)
    (Or.inr (by decide)) (by decide) (by decide) (by decide)

/-- C5: when the relaunch spawn fails after the installer subprocess has
completed, the run returns the relaunch-spawn-failure error to its
caller (the outcome is a return, not a process exit, so the current
process does not terminate) and the lock marker is gone from the final
filesystem. -/
theorem relaunch_spawn_failure_returns_and_releases
    (flag : Bool) (confirm : String → Bool) (env : Env) (v : String)
    (hfs : env.fs0 env.lockPath = false)
    (hcreate : env.createLockOk = true)
    (horigin : flag = false ∨ env.originFromPath = true)
    (hfetch : env.fetchResult = .ok v)
    (hne : v ≠ env.currentVersion)
    (hconfirm : confirm v = true)
    (hinstall : env.installSpawnOk = true)
    (hwait : env.installWaitOk = true)
    (hrelaunch : env.relaunchSpawnOk = false) :
    (relaunch_program flag confirm env).outcome = .ret (.error .relaunchSpawnFailure) ∧
    (relaunch_program flag confirm env).fs env.lockPath = false := by
  unfold relaunch_program
  rcases horigin with h | h <;>
    simp [hfs, hcreate, h, hfetch, hne, hconfirm, hinstall, hwait, hrelaunch]

/-- Witness for C5 at a concrete environment whose relaunch spawn
fails. -/
theorem relaunch_spawn_failure_returns_and_releases_witness :
    (relaunch_program true (fun _ => true)
        { envBase with relaunchSpawnOk := false }).outcome =
      .ret (.error .relaunchSpawnFailure) ∧
    (relaunch_program true (fun _ => true)
        { envBase with relaunchSpawnOk := false }).fs
        ({ envBase with relaunchSpawnOk := false } : Env).lockPath = false :=
  relaunch_spawn_failure_returns_and_releases true (fun _ => true)
    { envBase with relaunchSpawnOk := false } "0.2.0" (by decide) (by decide)
    (Or.inr (by decide)) (by decide) (by decide) (by decide) (by decide)
    (by decide) (by decide)

/-- C6: the exit status of the installer child is never inspected: the whole
run result is independent of the exit code, and once the installer has
been spawned and waited on successfully, the run always proceeds to the
relaunch spawn attempt — a non-zero installer exit never produces an
error and never skips the relaunch spawn (the outcome is determined
solely by whether the relaunch spawn succeeds). -/
theorem installer_exit_status_ignored
    (flag : Bool) (confirm : String → Bool) (env : Env) (v : String) (n : Nat)
    (hfs : env.fs0 env.lockPath = false)
    (hcreate : env.createLockOk = true)
    (horigin : flag = false ∨ env.originFromPath = true)
    (hfetch : env.fetchResult = .ok v)
    (hne : v ≠ env.currentVersion)
    (hconfirm : confirm v = true)
    (hinstall : env.installSpawnOk = true)
    (hwait : env.installWaitOk = true) :
    relaunch_program flag confirm { env with installExitCode := n } =
      relaunch_program flag confirm env ∧
    Event.relaunchSpawnAttempt ∈ (relaunch_program flag confirm env).events ∧
    (relaunch_program flag confirm env).outcome =
      (if env.relaunchSpawnOk then Outcome.exited 0
       else .ret (.error .relaunchSpawnFailure)) := by
  refine ⟨rfl, ?_⟩
  rcases horigin with h | h
  · subst h
    cases hr : env.relaunchSpawnOk <;>
      simp [relaunch_program, hfs, hcreate, hfetch, hne, hconfirm, hinstall,
        hwait, hr]
  · cases flag <;> cases hr : env.relaunchSpawnOk <;>
      simp [relaunch_program, hfs, hcreate, h, hfetch, hne, hconfirm, hinstall,
        hwait, hr]

/-- Witness for C6 at the concrete all-succeeding environment with
installer exit code 7. -/
theorem installer_exit_status_ignored_witness :
    relaunch_program true (fun _ => true) { envBase with installExitCode := 7 } =
      relaunch_program true (fun _ => true) envBase ∧
    Event.relaunchSpawnAttempt ∈
      (relaunch_program true (fun _ => true) envBase).events ∧
    (relaunch_program true (fun _ => true) envBase).outcome =
      (if envBase.relaunchSpawnOk then Outcome.exited 0
       else .ret (.error .relaunchSpawnFailure)) :=
  installer_exit_status_ignored true (fun _ => true) envBase "0.2.0" 7
    (by decide) (by decide) (Or.inr (by decide)) (by decide) (by decide)
    (by decide) (by decide) (by decide)

/-- C7: with the origin check enabled and an executable that is not
resolved via the search path, the run returns the origin-check error, no
registry fetch event ever occurs, and the lock file is gone from the
final filesystem before control returns. -/
theorem origin_check_failure_before_fetch
    (confirm : String → Bool) (env : Env)
    (hfs : env.fs0 env.lockPath = false)
    (hcreate : env.createLockOk = true)
    (horigin : env.originFromPath = false) :
    (relaunch_program true confirm env).outcome =
      .ret (.error .originCheckFailure) ∧
    Event.registryFetch ∉ (relaunch_program true confirm env).events ∧
    (relaunch_program true confirm env).fs env.lockPath = false := by
  unfold relaunch_program
  simp [hfs, hcreate, horigin]

/-- Witness for C7 at a concrete environment whose executable was not
resolved via the search path. -/
theorem origin_check_failure_before_fetch_witness :
    (relaunch_program true (fun _ => true)
        { envBase with originFromPath := false }).outcome =
      .ret (.error .originCheckFailure) ∧
    Event.registryFetch ∉ (relaunch_program true (fun _ => true)
        { envBase with originFromPath := false }).events ∧
    (relaunch_program true (fun _ => true)
        { envBase with originFromPath := false }).fs
        ({ envBase with originFromPath := false } : Env).lockPath = false :=
  origin_check_failure_before_fetch (fun _ => true)
    { envBase with originFromPath := false } (by decide) (by decide) (by decide)

/-- C8: `is_executed_from_path` returns `true` exactly when the resolved
executable path is absolute, has a file-name component (so in particular
it returns `false` for every relative path and for every path with no
parent directory component), and some candidate directory obtained by
splitting the `PATH` variable on `:` joins with that file name to a path
that exists on disk; it returns `false` when no candidate matches. -/
theorem is_executed_from_path_characterization (exe : RPath) (pv : Option String)
    (fs : String → Bool) :
    is_executed_from_path exe pv fs = true ↔
      (exe.absolute = true ∧ ∃ nm, exe.file_name = some nm ∧
        ∃ dir ∈ splitChar ':' (pv.getD ""), fs (joinDir dir nm) = true) := by
  rcases exe with ⟨abs, parts⟩
  cases abs
  · simp [is_executed_from_path, RPath.is_relative]
  · cases parts with
    | nil =>
        simp [is_executed_from_path, RPath.is_relative, RPath.parent_isNone,
          RPath.file_name]
    | cons a l =>
        have hnm := List.getLast?_eq_getLast_of_ne_nil (l := a :: l) (by simp)
        simp [is_executed_from_path, RPath.is_relative, RPath.parent_isNone,
          RPath.file_name, hnm, List.any_eq_true]

/-- C9: when the `PATH` environment variable is unset (or empty),
`is_executed_from_path` does not return `false` immediately: the empty
string is substituted, its split on `:` is the single empty candidate
directory, and joining the empty directory with the file name of the
executable yields the bare file name, so the result is exactly the existence
test of that bare name (resolved relative to the current working
directory) — the function can return `true` with no search-path
directory consulted. -/
theorem unset_path_env_checks_bare_filename (exe : RPath) (fs : String → Bool)
    (nm : String) (pv : Option String)
    (habs : exe.absolute = true)
    (hnm : exe.file_name = some nm)
    (hpv : pv = none ∨ pv = some "") :
    is_executed_from_path exe pv fs = fs nm := by
  rcases exe with ⟨abs, parts⟩
  cases abs
  · cases habs
  · simp only [RPath.file_name] at hnm
    have hne : parts ≠ [] := by
      intro h
      rw [h] at hnm
      cases hnm
    have hempty : parts.isEmpty = false := by
      cases parts with
      | nil => exact absurd rfl hne
      | cons a l => rfl
    rcases hpv with h | h <;> subst h <;>
      simp [is_executed_from_path, RPath.is_relative, RPath.parent_isNone,
        RPath.file_name, hnm, hempty, splitChar, splitCharList, joinDir]

/-- A filesystem whose current working directory holds a file named
`prog`. -/
def fsProg : String → Bool := fun s => s == "prog"

/-- Witness for C9: with `PATH` unset and a file named `prog` in the
current working directory, the function returns `true` for the absolute
executable path `/usr/bin/prog`. -/
theorem unset_path_env_checks_bare_filename_witness :
    is_executed_from_path ⟨true, ["usr", "bin", "prog"]⟩ none fsProg = true :=
  (unset_path_env_checks_bare_filename ⟨true, ["usr", "bin", "prog"]⟩ fsProg
    "prog" none rfl rfl (Or.inl rfl)).trans (by decide)

/-- C10: a builder constructed with `RSpawn::new` on which the
`check_if_executed_from_PATH` setter is never called keeps the
origin-check field at its default `Some(true)`, and its
`relaunch_program` invocation passes `true` for the origin-check flag;
moreover a missing field value (`None`) also falls back to `true` via
`unwrap_or(true)`. -/
theorem builder_origin_check_default_true
    (b bn : RSpawn) (hb : BuiltWithoutCheckSet b)
    (hn : bn.check_if_executed_from_PATH = none)
    (dc : String → Bool) (env : Env) :
    b.check_if_executed_from_PATH = some true ∧
    b.relaunch_program_b dc env =
      relaunch_program true (b.user_confirm.getD dc) env ∧
    bn.relaunch_program_b dc env =
      relaunch_program true (bn.user_confirm.getD dc) env := by
  have hfield : b.check_if_executed_from_PATH = some true := by
    induction hb with
    | new => rfl
    | features fs hb ih => exact ih
    | confirm f hb ih => exact ih
  refine ⟨hfield, ?_, ?_⟩
  · unfold RSpawn.relaunch_program_b
    rw [hfield]
    rfl
  · unfold RSpawn.relaunch_program_b
    rw [hn]
    rfl

/-- Witness for C10 at a concrete builder that sets only the
confirmation policy, and a concrete builder whose origin-check field is
absent. -/
theorem builder_origin_check_default_true_witness :
    (RSpawn.new.set_user_confirm (fun _ => true)).check_if_executed_from_PATH =
      some true ∧
    (RSpawn.new.set_user_confirm (fun _ => true)).relaunch_program_b
        (fun _ => false) envBase =
      relaunch_program true
        ((RSpawn.new.set_user_confirm (fun _ => true)).user_confirm.getD
          (fun _ => false)) envBase ∧
    ({ RSpawn.new with check_if_executed_from_PATH := none } :
        RSpawn).relaunch_program_b (fun _ => false) envBase =
      relaunch_program true
        (({ RSpawn.new with check_if_executed_from_PATH := none } :
            RSpawn).user_confirm.getD (fun _ => false)) envBase :=
  builder_origin_check_default_true
    (RSpawn.new.set_user_confirm (fun _ => true))
    { RSpawn.new with check_if_executed_from_PATH := none }
    (BuiltWithoutCheckSet.confirm (fun _ => true) BuiltWithoutCheckSet.new)
    rfl (fun _ => false) envBase

end Rspawn
